import Mathlib

/-!
Shallow embedding of the js-data Cloudflare D1 adapter
(src/util.js and the CloudflareAdapter class of src/index.js).

JavaScript objects are modelled as Lean structures; JS object property
iteration order is modelled by lists of key/value pairs in declaration
order; optional JS properties become `Option`; JS truthiness tests are
modelled at each use site (empty string and zero are falsy).
-/

namespace CFA

mutual
/-- JSON-like values that flow through the adapter: query comparison
values, schema default values and record field values. Arrays are
represented by the mutually defined `ValueList`. -/
inductive Value where
  | str (s : String)
  | num (n : Int)
  | boolVal (b : Bool)
  | null
  | arr (vs : ValueList)

inductive ValueList where
  | nil
  | cons (v : Value) (vs : ValueList)
end

deriving instance DecidableEq for Value
deriving instance DecidableEq for ValueList

/-- One field descriptor of a mapper schema (src/util.js, createTableSql):
`type`, `required`, `notNull`, `unique`, `default`. -/
structure FieldSchema where
  type : Option String := none
  required : Bool := false
  notNull : Bool := false
  unique : Bool := false
  default : Option Value := none
deriving DecidableEq

/-- A mapper schema: its `properties` object, as an ordered key/value list. -/
structure Schema where
  properties : Option (List (String × FieldSchema)) := none
deriving DecidableEq

/-- The mapper metadata this adapter reads: `name`, `idAttribute`,
optional explicit `table`, optional `schema`. -/
structure MapperMeta where
  name : String := ""
  idAttribute : Option String := none
  table : Option String := none
  schema : Option Schema := none
deriving DecidableEq

/-- src/util.js `underscore`: insert an underscore before each uppercase
letter, lowercase the whole string, strip one leading underscore. -/
def underscore (s : String) : String :=
  let withUnderscores := s.data.foldl
    (fun acc c => if c.isUpper then acc ++ ['_', c] else acc ++ [c]) []
  let lowered := withUnderscores.map Char.toLower
  String.mk (match lowered with
    | c :: rest => if c = '_' then rest else c :: rest
    | [] => [])

/-- `_getTable` of the adapter: `mapper.table || underscore(mapper.name)`.
An absent or empty (falsy) `table` falls back to the underscored name. -/
def getTable (m : MapperMeta) : String :=
  match m.table with
  | some t => if t = "" then underscore m.name else t
  | none => underscore m.name

/-- The SQL type suffix chosen by createTableSql from a field type. -/
def sqlType (t : Option String) : String :=
  match t with
  | some ty =>
      if ty = "string" then " TEXT"
      else if ty = "number" then " INTEGER"
      else if ty = "integer" then " INTEGER"
      else if ty = "boolean" then " INTEGER"
      else if ty = "object" then " TEXT"
      else if ty = "array" then " TEXT"
      else " TEXT"
  | none => " TEXT"

/-- A single-quote character, used when quoting string defaults. -/
def singleQuote : String := String.mk [Char.ofNat 39]

mutual
/-- JS string coercion of a value, as used by the template literal
`DEFAULT <value>` for non-string defaults. -/
def jsToString : Value → String
  | .str s => s
  | .num n => toString n
  | .boolVal b => if b then "true" else "false"
  | .null => "null"
  | .arr vs => String.intercalate "," (jsToStrings vs)

def jsToStrings : ValueList → List String
  | .nil => []
  | .cons v rest => jsToString v :: jsToStrings rest
end

/-- One column definition of createTableSql: name, SQL type, then in order
PRIMARY KEY AUTOINCREMENT (when the field is the id attribute), NOT NULL
(when `required` or `notNull`), UNIQUE, DEFAULT. String defaults are
single-quoted without escaping. -/
def columnDef (idAttribute : String) (fieldName : String) (fs : FieldSchema) : String :=
  let d := fieldName ++ sqlType fs.type
  let d := if fieldName = idAttribute then d ++ " PRIMARY KEY AUTOINCREMENT" else d
  let d := if fs.required || fs.notNull then d ++ " NOT NULL" else d
  let d := if fs.unique then d ++ " UNIQUE" else d
  match fs.default with
  | some (.str s) => d ++ " DEFAULT " ++ singleQuote ++ s ++ singleQuote
  | some v => d ++ " DEFAULT " ++ jsToString v
  | none => d

/-- `mapper.idAttribute || '_id'`: absent or empty id attribute falls back
to `_id`. -/
def resolveIdAttribute (m : MapperMeta) : String :=
  match m.idAttribute with
  | some s => if s = "" then "_id" else s
  | none => "_id"

/-- src/util.js `createTableSql`: synthesize an autoincrement id column
when the id attribute is not among the schema properties, then walk the
properties in declaration order, skipping a property that is the id
attribute while the column list is already non-empty, and finally fall
back to a bare id column when no column was produced at all. -/
def createTableSql (m : MapperMeta) (tableName : String) : String :=
  let properties := (m.schema.getD ⟨none⟩).properties.getD []
  let idAttribute := resolveIdAttribute m
  let columns : List String :=
    if (properties.find? (fun p => p.1 == idAttribute)).isNone then
      [idAttribute ++ " INTEGER PRIMARY KEY AUTOINCREMENT"]
    else []
  let columns := properties.foldl
    (fun cols p =>
      if p.1 = idAttribute ∧ cols.length > 0 then cols
      else cols ++ [columnDef idAttribute p.1 p.2])
    columns
  let columns :=
    if columns.length = 0 then
      [idAttribute ++ " INTEGER PRIMARY KEY AUTOINCREMENT"]
    else columns
  "CREATE TABLE IF NOT EXISTS " ++ tableName ++ " (" ++ String.intercalate ", " columns ++ ")"

/-- One WHERE clause accumulated by the knex builder: a binary
comparison (`where`), a set membership (`whereIn`) or a set exclusion
(`whereNotIn`). All accumulated clauses are AND-ed. -/
inductive WhereClause where
  | cmp (field : String) (op : String) (value : Value)
  | inList (field : String) (value : Value)
  | notInList (field : String) (value : Value)
deriving DecidableEq

/-- The knex query-builder state that toSql manipulates: a LIMIT value,
an OFFSET value, accumulated ORDER BY pairs and accumulated AND-ed WHERE
clauses. -/
structure Builder where
  limit : Option Value := none
  offset : Option Value := none
  orderBy : List (String × String) := []
  whereClauses : List WhereClause := []
deriving DecidableEq

def emptyBuilder : Builder := {}

/-- knex `builder.limit(v)`: a later call overwrites an earlier one. -/
def Builder.setLimit (b : Builder) (v : Value) : Builder := { b with limit := some v }

/-- knex `builder.offset(v)`: a later call overwrites an earlier one. -/
def Builder.setOffset (b : Builder) (v : Value) : Builder := { b with offset := some v }

/-- knex `builder.orderBy(name, dir)`: appends one ordering pair. -/
def Builder.pushOrderBy (b : Builder) (name dir : String) : Builder :=
  { b with orderBy := b.orderBy ++ [(name, dir)] }

/-- knex `builder.where` / `whereIn` / `whereNotIn`: appends one AND-ed
clause. -/
def Builder.addWhere (b : Builder) (c : WhereClause) : Builder :=
  { b with whereClauses := b.whereClauses ++ [c] }

/-- An abstract query object (src/util.js toSql): optional `limit`,
`offset`, `orderBy`, an optional nested `where` query, and the remaining
top-level keys as field-name to operator-map entries in declaration
order. -/
inductive Query where
  | mk (limit : Option Value) (offset : Option Value)
       (orderBy : Option (List (String × String)))
       (whereQ : Option Query)
       (fields : List (String × List (String × Value)))

instance : Inhabited Query := ⟨.mk none none none none []⟩

/-- The operator switch of toSql (src/util.js, lines 56-92): each
recognized operator appends one clause to the builder; any other
operator falls through the switch and appends nothing. -/
def applyOp (b : Builder) (field : String) (op : String) (value : Value) : Builder :=
  if op = "==" ∨ op = "===" then b.addWhere (.cmp field "=" value)
  else if op = "!=" ∨ op = "!==" then b.addWhere (.cmp field "<>" value)
  else if op = ">" then b.addWhere (.cmp field ">" value)
  else if op = ">=" then b.addWhere (.cmp field ">=" value)
  else if op = "<" then b.addWhere (.cmp field "<" value)
  else if op = "<=" then b.addWhere (.cmp field "<=" value)
  else if op = "in" ∨ op = "contains" then b.addWhere (.inList field value)
  else if op = "notIn" ∨ op = "notContains" then b.addWhere (.notInList field value)
  else b

/-- The inner loop of toSql over one field's operator/value entries. -/
def applyFieldOps (b : Builder) (field : String) (ops : List (String × Value)) : Builder :=
  ops.foldl (fun b ov => applyOp b field ov.1 ov.2) b

/-- The outer loop of toSql over the remaining field entries. -/
def applyFields (b : Builder) (fs : List (String × List (String × Value))) : Builder :=
  fs.foldl (fun b fc => applyFieldOps b fc.1 fc.2) b

/-- The orderBy loop of toSql: each direction is lowercased
(`toLocaleLowerCase`) before being appended. -/
def applyOrderBy (b : Builder) (pairs : List (String × String)) : Builder :=
  pairs.foldl (fun b p => b.pushOrderBy p.1 p.2.toLower) b

/-- src/util.js `toSql`, as a pure function on the builder state. The
source first takes a deep copy of the query (the mutation of the copy is
modelled by `toSqlHeap` below), then consumes `limit`, `offset`,
`orderBy`, the nested `where` query (recursively, through the same
function) and finally every remaining field entry in declaration order. -/
def toSql (b : Builder) : Query → Builder
  | .mk lim off ob w fs =>
    let b1 := match lim with | some v => b.setLimit v | none => b
    let b2 := match off with | some v => b1.setOffset v | none => b1
    let b3 := match ob with | some pairs => applyOrderBy b2 pairs | none => b2
    let b4 := match w with | some q => toSql b3 q | none => b3
    applyFields b4 fs

/-- A heap of JS query objects; a cell index is an object reference.
This makes the copy-then-mutate behavior of toSql observable. -/
abbrev QHeap := List Query

/-- js-data `utils.plainCopy` as a heap operation: allocate a fresh cell
holding a structurally equal deep copy of the object at `r`. -/
def plainCopyAlloc (h : QHeap) (r : Nat) : QHeap × Nat :=
  (h ++ [h.getD r default], h.length)

/-- By the time toSql returns, every key of its working copy has been
deleted, leaving an empty object. -/
def emptyQuery : Query := .mk none none none none []

/-- toSql with the mutation made explicit: the function deep-copies the
caller's object into a fresh cell (`query = utils.plainCopy(query)`),
compiles that copy, and its `delete` statements leave the working copy
empty. The caller's cell is never written. Returns the builder, the
final heap, and the reference to the working copy. -/
def toSqlHeap (b : Builder) (h : QHeap) (r : Nat) : Builder × QHeap × Nat :=
  let hc := plainCopyAlloc h r
  let q := hc.1.getD hc.2 default
  (toSql b q, hc.1.set hc.2 emptyQuery, hc.2)

/-- One entry of the envelope's `errors` array (only `message` is read). -/
structure ErrEntry where
  message : String := ""
deriving DecidableEq

/-- The `meta` block of a D1 result, restricted to the fields the
adapter interprets. -/
structure Meta where
  changes : Option Int := none
  last_row_id : Option Int := none
deriving DecidableEq

/-- A record: an ordered field-name/value map. -/
abbrev Rec := List (String × Value)

/-- One element of the envelope's `result` array. -/
structure RemoteResult where
  results : List Rec := []
  meta : Option Meta := none
deriving DecidableEq

/-- The remote response envelope `success`/`result`/`errors`. -/
structure Envelope where
  success : Bool := false
  result : List RemoteResult := []
  errors : List ErrEntry := []
deriving DecidableEq

/-- `_executeSQL`'s envelope handling (src/index.js): when `success` is
falsy, throw an Error with message `errors[0]?.message || 'Unknown
error'` (a JS falsy test, so an absent first entry and an empty first
message both fall back); on success return `result[0]`, which is absent
when the `result` array is empty. -/
def executeSQL (resp : Envelope) : Except String (Option RemoteResult) :=
  if !resp.success then
    Except.error (match resp.errors.head? with
      | some e => if e.message = "" then "Unknown error" else e.message
      | none => "Unknown error")
  else
    Except.ok resp.result.head?

/-- The adapter state `_ensureTable` touches: the table-name cache plus
a log of the SQL statements handed to `_executeSQL`. -/
structure AdapterState where
  tableCache : List String := []
  remoteCalls : List String := []
deriving DecidableEq

/-- `_ensureTable` (src/index.js): return at once on a cache hit; with
auto-creation disabled fail naming the table, without any remote call;
otherwise compile the DDL, execute it remotely (the remote's envelope
for that provisioning call is the `resp` argument) and add the name to
the cache only when the call succeeded. -/
def ensureTable (autocreateTables : Bool) (resp : Envelope) (m : MapperMeta)
    (s : AdapterState) : Except String Unit × AdapterState :=
  let tableName := getTable m
  if tableName ∈ s.tableCache then (.ok (), s)
  else if !autocreateTables then
    (.error ("Table " ++ tableName ++ " not found"), s)
  else
    let createSQL := createTableSql m tableName
    let s1 := { s with remoteCalls := s.remoteCalls ++ [createSQL] }
    match executeSQL resp with
    | .error e => (.error e, s1)
    | .ok _ => (.ok (), { s1 with tableCache := s1.tableCache ++ [tableName] })

/-- `result.meta?.last_row_id`. -/
def lastRowId (rr : RemoteResult) : Option Int :=
  rr.meta.bind (fun mt => mt.last_row_id)

/-- JS property assignment `props[k] = v`: overwrite the value of the
first occurrence of `k` in place, or append a new field. -/
def setField (props : Rec) (k : String) (v : Value) : Rec :=
  match props with
  | [] => [(k, v)]
  | (k2, v2) :: rest => if k2 = k then (k, v) :: rest else (k2, v2) :: setField rest k v

/-- The result-shaping tail of `_create` (src/index.js): read
`meta?.last_row_id`; when it is truthy (present and nonzero, a JS falsy
test) write it into the props under the mapper's id attribute; return
the props paired with the remote meta. -/
def createResult (idAttribute : String) (props : Rec) (rr : RemoteResult) :
    Rec × Option Meta :=
  match lastRowId rr with
  | some n =>
      if n ≠ 0 then (setField props idAttribute (.num n), rr.meta)
      else (props, rr.meta)
  | none => (props, rr.meta)

/-- A heap of record objects; a cell index is an object reference. Used
to observe that `_create` mutates the caller's props in place. -/
abbrev RecHeap := List Rec

/-- `_create`'s annotation step on the heap: `props[mapper.idAttribute]
= id` writes through the caller's reference, and the very same
reference is returned as the primary payload. -/
def createHeap (idAttribute : String) (h : RecHeap) (propsRef : Nat)
    (rr : RemoteResult) : RecHeap × Nat × Option Meta :=
  match lastRowId rr with
  | some n =>
      if n ≠ 0 then
        (h.set propsRef (setField (h.getD propsRef []) idAttribute (.num n)),
         propsRef, rr.meta)
      else (h, propsRef, rr.meta)
  | none => (h, propsRef, rr.meta)

/-! Helper lemmas on the query compiler. -/

/-- The operator symbols recognized by the toSql switch. -/
def recognizedOps : List String :=
  ["==", "===", "!=", "!==", ">", ">=", "<", "<=",
   "in", "contains", "notIn", "notContains"]

/-- The clause, if any, contributed by a single operator entry: the
operator table of `applyOp`, read off as data. -/
def opClause (field : String) (op : String) (value : Value) : Option WhereClause :=
  if op = "==" ∨ op = "===" then some (.cmp field "=" value)
  else if op = "!=" ∨ op = "!==" then some (.cmp field "<>" value)
  else if op = ">" then some (.cmp field ">" value)
  else if op = ">=" then some (.cmp field ">=" value)
  else if op = "<" then some (.cmp field "<" value)
  else if op = "<=" then some (.cmp field "<=" value)
  else if op = "in" ∨ op = "contains" then some (.inList field value)
  else if op = "notIn" ∨ op = "notContains" then some (.notInList field value)
  else none

/-- The clauses contributed by one field's operator entries. -/
def fieldClauses (field : String) (ops : List (String × Value)) : List WhereClause :=
  ops.filterMap (fun ov => opClause field ov.1 ov.2)

/-- The clauses contributed by a query's field entries. -/
def queryClauses (fs : List (String × List (String × Value))) : List WhereClause :=
  (fs.map (fun fc => fieldClauses fc.1 fc.2)).flatten

theorem applyOp_spec (b : Builder) (f op : String) (v : Value) :
    applyOp b f op v =
      { b with whereClauses := b.whereClauses ++ (opClause f op v).toList } := by
  unfold applyOp opClause Builder.addWhere
  split_ifs <;> simp

theorem applyOp_unrecognized (b : Builder) (f op : String) (v : Value)
    (h : op ∉ recognizedOps) : applyOp b f op v = b := by
  have hc : opClause f op v = none := by
    simp only [recognizedOps, List.mem_cons, List.not_mem_nil, or_false, not_or] at h
    obtain ⟨h1, h2, h3, h4, h5, h6, h7, h8, h9, h10, h11, h12⟩ := h
    simp [opClause, h1, h2, h3, h4, h5, h6, h7, h8, h9, h10, h11, h12]
  rw [applyOp_spec, hc]
  simp

theorem applyFieldOps_spec (f : String) (ops : List (String × Value)) (b : Builder) :
    applyFieldOps b f ops =
      { b with whereClauses := b.whereClauses ++ fieldClauses f ops } := by
  induction ops generalizing b with
  | nil => simp [applyFieldOps, fieldClauses]
  | cons ov rest ih =>
      have h1 : applyFieldOps b f (ov :: rest)
          = applyFieldOps (applyOp b f ov.1 ov.2) f rest := rfl
      rw [h1, ih, applyOp_spec]
      simp [fieldClauses, List.filterMap_cons]
      cases opClause f ov.1 ov.2 <;> simp

theorem applyFields_spec (fs : List (String × List (String × Value))) (b : Builder) :
    applyFields b fs =
      { b with whereClauses := b.whereClauses ++ queryClauses fs } := by
  induction fs generalizing b with
  | nil => simp [applyFields, queryClauses]
  | cons fc rest ih =>
      have h1 : applyFields b (fc :: rest)
          = applyFields (applyFieldOps b fc.1 fc.2) rest := rfl
      rw [h1, ih, applyFieldOps_spec]
      simp [queryClauses]

theorem applyOrderBy_spec (pairs : List (String × String)) (b : Builder) :
    applyOrderBy b pairs =
      { b with orderBy := b.orderBy ++ pairs.map (fun p => (p.1, p.2.toLower)) } := by
  induction pairs generalizing b with
  | nil => simp [applyOrderBy]
  | cons p rest ih =>
      have h1 : applyOrderBy b (p :: rest)
          = applyOrderBy (b.pushOrderBy p.1 p.2.toLower) rest := rfl
      rw [h1, ih]
      simp [Builder.pushOrderBy]

/-- The `if ('limit' in query)` stage of toSql. -/
def applyLimitOpt (b : Builder) : Option Value → Builder
  | some v => b.setLimit v
  | none => b

/-- The `if ('offset' in query)` stage of toSql. -/
def applyOffsetOpt (b : Builder) : Option Value → Builder
  | some v => b.setOffset v
  | none => b

/-- The `if ('orderBy' in query)` stage of toSql. -/
def applyOrderByOpt (b : Builder) : Option (List (String × String)) → Builder
  | some pairs => applyOrderBy b pairs
  | none => b

/-- The `if ('where' in query)` stage of toSql: recursive compilation of
the nested query into the same builder. -/
def applyWhereOpt (b : Builder) : Option Query → Builder
  | some q => toSql b q
  | none => b

/-- The one-step unfolding of toSql, phrased through the stage helpers
(the generated equations are split per option pattern, so this single
equation is proved by cases). -/
theorem toSql_mk (b : Builder) (lim off : Option Value)
    (ob : Option (List (String × String))) (w : Option Query)
    (fs : List (String × List (String × Value))) :
    toSql b (.mk lim off ob w fs)
      = applyFields
          (applyWhereOpt (applyOrderByOpt (applyOffsetOpt (applyLimitOpt b lim) off) ob) w)
          fs := by
  cases lim <;> cases off <;> cases ob <;> cases w <;>
    simp [toSql, applyLimitOpt, applyOffsetOpt, applyOrderByOpt, applyWhereOpt]

theorem applyFieldOps_drop (f : String) (pre post : List (String × Value))
    (op : String) (v : Value) (h : op ∉ recognizedOps) (b : Builder) :
    applyFieldOps b f (pre ++ (op, v) :: post) = applyFieldOps b f (pre ++ post) := by
  simp only [applyFieldOps, List.foldl_append, List.foldl_cons]
  rw [applyOp_unrecognized _ _ _ _ h]

theorem applyFields_drop (b : Builder) (field op : String) (v : Value)
    (fsPre fsPost : List (String × List (String × Value)))
    (pre post : List (String × Value)) (h : op ∉ recognizedOps) :
    applyFields b (fsPre ++ (field, pre ++ (op, v) :: post) :: fsPost)
      = applyFields b (fsPre ++ (field, pre ++ post) :: fsPost) := by
  simp only [applyFields, List.foldl_append, List.foldl_cons]
  rw [applyFieldOps_drop field pre post op v h]

theorem intercalate_singleton (s x : String) : String.intercalate s [x] = x := by
  simp [String.intercalate, String.intercalate.go]

/-! Claim theorems and their witnesses. -/

/-- A mapper whose schema declares the id attribute after another
property: the failing input of claim C1. -/
def lateIdMapper : MapperMeta :=
  { name := "user", idAttribute := some "id",
    schema := some { properties := some [
      ("name", { type := some "string" }),
      ("id", { type := some "integer" })] } }

/-- The mapper of the C6 schema scenario: integer id, required name,
unique email, id attribute `id`. -/
def scenarioMapper : MapperMeta :=
  { name := "user", idAttribute := some "id",
    schema := some { properties := some [
      ("id", { type := some "integer" }),
      ("name", { type := some "string", required := true }),
      ("email", { type := some "string", unique := true })] } }

/-- A mapper carrying no schema at all. -/
def bareMapper : MapperMeta := { name := "user" }

/-- A mapper with an empty schema property list and a given id
attribute. -/
def emptyPropsMapper (idA : String) : MapperMeta :=
  { name := "user", idAttribute := some idA,
    schema := some { properties := some [] } }

/-- C1 (code bug, evaluation at the failing input): the claim states
that a schema whose properties include the id attribute always yields a
column definition for it with PRIMARY KEY AUTOINCREMENT appended,
regardless of declaration order. The code disagrees: when the id
attribute is declared after another property, the skip guard (fieldName
equals the id attribute while the column list is non-empty, commented
as if the column had already been added) drops the id column entirely.
At the failing input the generated DDL has only the name column and no
id column at all. -/
theorem c1_createTableSql_drops_late_id :
    createTableSql lateIdMapper "t"
      = "CREATE TABLE IF NOT EXISTS t (name TEXT)" := by rfl

/-- C2 (counterexample): the claim states that limit, offset and
orderBy entries of a nested where query are ignored, so that compiling
a query whose nested where carries a limit gives the same output as
compiling the query with that nested limit removed, the outer limit
being unaffected. At the concrete input below the two outputs differ:
the nested limit 5 overwrites the outer limit 10. -/
theorem c2_counterexample :
    toSql emptyBuilder
        (Query.mk (some (.num 10)) none none
          (some (Query.mk (some (.num 5)) none none none [])) [])
      ≠ toSql emptyBuilder
        (Query.mk (some (.num 10)) none none
          (some (Query.mk none none none none [])) []) := by decide

/-- C2 (amended): a one-level-nested where query is recursively
compiled into the same builder rather than ignored: its limit and
offset overwrite the outer values, its orderBy pairs are appended after
the outer ones (lowercased), and its field predicates merge into the
same conjunctive WHERE clause list, before the outer query's own field
predicates. -/
theorem c2_nested_query_merged (b : Builder) (l1 l2 o1 o2 : Value)
    (ob1 ob2 : List (String × String))
    (fs1 fs2 : List (String × List (String × Value))) :
    toSql b (.mk (some l1) (some o1) (some ob1)
        (some (.mk (some l2) (some o2) (some ob2) none fs2)) fs1)
      = { limit := some l2, offset := some o2,
          orderBy := b.orderBy ++ ob1.map (fun p => (p.1, p.2.toLower))
                       ++ ob2.map (fun p => (p.1, p.2.toLower)),
          whereClauses := b.whereClauses ++ queryClauses fs2 ++ queryClauses fs1 } := by
  rw [toSql_mk]
  simp only [applyLimitOpt, applyOffsetOpt, applyOrderByOpt, applyWhereOpt]
  rw [toSql_mk]
  simp only [applyLimitOpt, applyOffsetOpt, applyOrderByOpt, applyWhereOpt]
  rw [applyOrderBy_spec, applyOrderBy_spec, applyFields_spec, applyFields_spec]
  simp [Builder.setLimit, Builder.setOffset, List.append_assoc]

/-- C6: the concrete schema scenario (id, name required, email unique;
id attribute `id`, table `t`) compiles to exactly the claimed DDL
string; an absent schema, and an empty property list, both produce a
single synthesized autoincrementing id column. -/
theorem c6_schema_scenarios :
    (createTableSql scenarioMapper "t"
      = "CREATE TABLE IF NOT EXISTS t (id INTEGER PRIMARY KEY AUTOINCREMENT, name TEXT NOT NULL, email TEXT UNIQUE)")
    ∧ (∀ tn : String, createTableSql bareMapper tn
        = "CREATE TABLE IF NOT EXISTS " ++ tn ++ " ("
            ++ "_id INTEGER PRIMARY KEY AUTOINCREMENT" ++ ")")
    ∧ (∀ idA tn : String, idA ≠ "" →
        createTableSql (emptyPropsMapper idA) tn
          = "CREATE TABLE IF NOT EXISTS " ++ tn ++ " (" ++ idA
              ++ " INTEGER PRIMARY KEY AUTOINCREMENT" ++ ")") := by
  refine ⟨by rfl, ?_, ?_⟩
  · intro tn
    simp [createTableSql, bareMapper, resolveIdAttribute, intercalate_singleton]
  · intro idA tn hid
    simp [createTableSql, emptyPropsMapper, resolveIdAttribute, hid,
      intercalate_singleton, String.append_assoc]

/-- C6 (witness): the universally quantified parts of `c6_schema_scenarios`
evaluated at a concrete table name and id attribute. -/
theorem c6_witness :
    createTableSql (emptyPropsMapper "id") "t"
      = "CREATE TABLE IF NOT EXISTS t (id INTEGER PRIMARY KEY AUTOINCREMENT)" :=
  c6_schema_scenarios.2.2 "id" "t" (by decide)

/-- C7: an operator entry whose symbol is not in the recognized set
contributes no clause and raises no error: the compiled output is
identical to that of the same query with the entry removed, wherever
the entry sits among the query's field entries. -/
theorem c7_unrecognized_op_dropped
    (b : Builder) (lim off : Option Value) (ob : Option (List (String × String)))
    (w : Option Query) (field op : String) (v : Value)
    (fsPre fsPost : List (String × List (String × Value)))
    (pre post : List (String × Value))
    (h : op ∉ recognizedOps) :
    toSql b (.mk lim off ob w (fsPre ++ (field, pre ++ (op, v) :: post) :: fsPost))
      = toSql b (.mk lim off ob w (fsPre ++ (field, pre ++ post) :: fsPost)) := by
  rw [toSql_mk, toSql_mk]
  exact applyFields_drop _ field op v fsPre fsPost pre post h

/-- C7 (witness): the tilde-equals operator is not recognized and its
entry leaves the compiled output unchanged. -/
theorem c7_witness :
    ("~=" ∉ recognizedOps)
    ∧ toSql emptyBuilder
        (Query.mk none none none none
          [("age", [(">=", .num 18), ("~=", .num 5)])])
      = toSql emptyBuilder
          (Query.mk none none none none [("age", [(">=", .num 18)])]) := by
  refine ⟨by decide, ?_⟩
  exact c7_unrecognized_op_dropped emptyBuilder none none none none "age" "~="
    (.num 5) [] [] [(">=", .num 18)] [] (by decide)

/-- C3: for a table that is initially uncached, with auto-creation
enabled, the first `ensureTable` call performs exactly one remote call
(the compiled CREATE TABLE statement) and adds the name to the cache
when the remote call succeeds; a subsequent call for that name then
returns immediately with no state change (hence zero additional remote
calls, for every later call); when the provisioning call fails, the
name is not added to the cache (though the failed remote call was
logged). -/
theorem c3_ensureTable_caches_once (m : MapperMeta) (s : AdapterState)
    (resp : Envelope) (h : getTable m ∉ s.tableCache) :
    (resp.success = true →
      ensureTable true resp m s
        = (Except.ok (), { tableCache := s.tableCache ++ [getTable m],
                           remoteCalls := s.remoteCalls ++ [createTableSql m (getTable m)] })
      ∧ ∀ resp2 : Envelope,
          ensureTable true resp2 m (ensureTable true resp m s).2
            = (Except.ok (), (ensureTable true resp m s).2))
    ∧ (resp.success = false →
        (ensureTable true resp m s).2.tableCache = s.tableCache
        ∧ (ensureTable true resp m s).2.remoteCalls
            = s.remoteCalls ++ [createTableSql m (getTable m)]
        ∧ (ensureTable true resp m s).1 = Except.error (match resp.errors.head? with
            | some e => if e.message = "" then "Unknown error" else e.message
            | none => "Unknown error")) := by
  constructor
  · intro hs
    have h1 : ensureTable true resp m s
        = (Except.ok (), { tableCache := s.tableCache ++ [getTable m],
                           remoteCalls := s.remoteCalls ++ [createTableSql m (getTable m)] }) := by
      simp [ensureTable, executeSQL, h, hs]
    refine ⟨h1, ?_⟩
    intro resp2
    rw [h1]
    simp [ensureTable]
  · intro hs
    simp [ensureTable, executeSQL, h, hs]

/-- C3 (witness): a concrete uncached table, successfully provisioned
once, then requested again with no state change. -/
theorem c3_witness :
    ensureTable true { success := true } { name := "user" } {}
      = (Except.ok (), { tableCache := ["user"],
                         remoteCalls := [createTableSql { name := "user" } "user"] })
    ∧ ensureTable true { success := true } { name := "user" }
          (ensureTable true { success := true } { name := "user" } {}).2
        = (Except.ok (), (ensureTable true { success := true } { name := "user" } {}).2) := by
  have h := c3_ensureTable_caches_once { name := "user" } {} { success := true }
    (by decide)
  have h1 := (h.1 rfl).1
  have h2 := (h.1 rfl).2 { success := true }
  exact ⟨by simpa using h1, h2⟩

/-- C8: with auto-creation disabled and the table not in the cache,
`ensureTable` fails with an error naming the table, performs no remote
call, and leaves the whole adapter state (cache and call log)
unchanged. -/
theorem c8_no_autocreate_fails (m : MapperMeta) (s : AdapterState)
    (resp : Envelope) (h : getTable m ∉ s.tableCache) :
    ensureTable false resp m s
      = (Except.error ("Table " ++ getTable m ++ " not found"), s) := by
  simp [ensureTable, h]

/-- C8 (witness): concrete uncached table with auto-creation disabled. -/
theorem c8_witness :
    ensureTable false { success := true } { name := "user" } {}
      = (Except.error "Table user not found", { : AdapterState }) :=
  c8_no_autocreate_fails { name := "user" } {} { success := true } (by decide)

/-- C4 (counterexample): the claim states that on a failed envelope the
error message is the first entry of the errors array, with the generic
message reserved for an empty errors array. The code uses a JS falsy
test, so a present but empty first message also yields the generic
message: at the envelope below the code produces the generic message,
not the (empty) first entry. -/
theorem c4_counterexample :
    executeSQL { success := false, errors := [{ message := "" }] }
      = Except.error "Unknown error"
    ∧ ("Unknown error" : String) ≠ "" := by
  exact ⟨rfl, by decide⟩

/-- The error message the amended claim prescribes for a failed
envelope: the first error's message when the errors array is non-empty
and that message is itself non-empty; the generic message otherwise. -/
def expectedErrorMessage (errors : List ErrEntry) : String :=
  match errors with
  | [] => "Unknown error"
  | e :: _ => if e.message = "" then "Unknown error" else e.message

/-- C4 (amended): on a failed envelope the call fails with the first
error's message when present and non-empty, and with the generic
message when the errors array is empty or its first message is empty;
on success it returns the first element of the result array (absent
when that array is empty). -/
theorem c4_executeSQL_envelope (resp : Envelope) :
    executeSQL resp
      = if resp.success then Except.ok resp.result.head?
        else Except.error (expectedErrorMessage resp.errors) := by
  cases hs : resp.success <;>
    cases he : resp.errors <;>
      simp [executeSQL, expectedErrorMessage, hs, he]

/-- C9 (counterexample): the claim states that whenever the remote
metadata reports a last_row_id the returned props carry the id
attribute set to it. The code tests the id for JS truthiness, so a
reported last_row_id of 0 is not written: at the input below the props
come back without any id field, while the claim requires an id field
equal to 0. -/
theorem c9_counterexample :
    createResult "id" [("name", .str "John Doe")]
        { meta := some { last_row_id := some 0 } }
      = ([("name", Value.str "John Doe")],
         some { changes := none, last_row_id := some 0 })
    ∧ ([("name", Value.str "John Doe")] : Rec)
        ≠ setField [("name", Value.str "John Doe")] "id" (.num 0) := by
  exact ⟨rfl, by decide⟩

/-- C9 (amended): when the remote metadata reports a non-zero
last_row_id, `_create` returns the input props with the id attribute
set to it (no re-fetched row), paired with the remote metadata; when
last_row_id is absent or zero (falsy), the props are returned without
an id annotation. -/
theorem c9_create_annotates_id (idA : String) (props : Rec) (rr : RemoteResult) :
    (∀ n : Int, lastRowId rr = some n → n ≠ 0 →
        createResult idA props rr = (setField props idA (.num n), rr.meta))
    ∧ (lastRowId rr = none ∨ lastRowId rr = some 0 →
        createResult idA props rr = (props, rr.meta)) := by
  constructor
  · intro n hn hnz
    simp [createResult, hn, hnz]
  · rintro (h | h) <;> simp [createResult, h]

/-- C9 (witness): the scenario of the claim, with last_row_id 123. -/
theorem c9_witness :
    createResult "id" [("name", .str "John Doe")]
        { meta := some { last_row_id := some 123 } }
      = ([("name", Value.str "John Doe"), ("id", Value.num 123)],
         some { changes := none, last_row_id := some 123 }) := by
  have h := (c9_create_annotates_id "id" [("name", .str "John Doe")]
    { meta := some { last_row_id := some 123 } }).1 123 rfl (by decide)
  simpa [setField] using h

/-- C5: compiling a query never mutates the caller's object: the
builder output is a function of the value of the caller's object, every
previously allocated heap cell (the caller's object and anything else
alive) is unchanged after compilation at every nesting level (cells
hold whole trees), and the working copy that toSql consumes is a fresh
cell allocated past the end of the old heap. -/
theorem c5_toSql_no_mutation (b : Builder) (h : QHeap) (r : Nat) :
    ((toSqlHeap b h r).1 = toSql b (h.getD r default))
    ∧ (∀ r2, r2 < h.length →
        (toSqlHeap b h r).2.1.getD r2 default = h.getD r2 default)
    ∧ ((toSqlHeap b h r).2.2 = h.length) := by
  refine ⟨?_, ?_, rfl⟩
  · show toSql b ((h ++ [h.getD r default]).getD h.length default) = _
    rw [List.getD_eq_getElem?_getD, List.getElem?_concat_length]
    rfl
  · intro r2 hr2
    show ((h ++ [h.getD r default]).set h.length emptyQuery).getD r2 default
        = h.getD r2 default
    rw [List.getD_eq_getElem?_getD, List.getElem?_set_ne (by omega),
      List.getElem?_append_left hr2, List.getD_eq_getElem?_getD]

/-- C5 (witness): a concrete one-cell heap whose query survives
compilation unchanged. -/
theorem c5_witness :
    (toSqlHeap emptyBuilder [Query.mk (some (.num 7)) none none none []] 0).2.1.getD 0 default
      = ([Query.mk (some (.num 7)) none none none []] : QHeap).getD 0 default :=
  (c5_toSql_no_mutation emptyBuilder [Query.mk (some (.num 7)) none none none []] 0).2.1
    0 (by decide)

/-- C10 (counterexample): the claim states that whenever the remote
metadata carries a last_row_id, the id attribute is written directly
onto the caller's props object. As in C9, the code guards the write
with a JS truthiness test, so a carried last_row_id of 0 writes
nothing: at the input below the caller's heap is returned completely
unchanged (the record in cell 0 has no id field), while the claim
requires the id attribute written onto that object. -/
theorem c10_counterexample :
    ((createHeap "id" [[("name", Value.str "John Doe")]] 0
        { meta := some { last_row_id := some 0 } }).1
      = [[("name", Value.str "John Doe")]])
    ∧ ([("name", Value.str "John Doe")] : Rec)
        ≠ setField [("name", Value.str "John Doe")] "id" (.num 0) := by
  exact ⟨rfl, by decide⟩

/-- C10 (amended): when the remote metadata carries a non-zero (truthy)
last_row_id, `_create` writes the id attribute directly onto the record
object the caller passed in — the caller's heap cell is updated in
place, the very same reference is returned as the primary payload, and
every other cell is untouched; when last_row_id is absent or zero (JS
falsy), nothing is written anywhere and the same caller's reference is
still returned. This contrasts with the deep-copying query-compilation
path of C5. -/
theorem c10_create_writes_through_ref (idA : String) (h : RecHeap) (r : Nat)
    (rr : RemoteResult) :
    (∀ n : Int, lastRowId rr = some n → n ≠ 0 → r < h.length →
      ((createHeap idA h r rr).2.1 = r)
      ∧ ((createHeap idA h r rr).1.getD r [] = setField (h.getD r []) idA (.num n))
      ∧ ((createHeap idA h r rr).1.length = h.length)
      ∧ (∀ r2, r2 < h.length → r2 ≠ r →
          (createHeap idA h r rr).1.getD r2 [] = h.getD r2 []))
    ∧ (lastRowId rr = none ∨ lastRowId rr = some 0 →
        createHeap idA h r rr = (h, r, rr.meta)) := by
  constructor
  · intro n hn hnz hr
    refine ⟨?_, ?_, ?_, ?_⟩
    · simp [createHeap, hn, hnz]
    · simp [createHeap, hn, hnz, List.getD_eq_getElem?_getD,
        List.getElem?_set_self hr]
    · simp [createHeap, hn, hnz]
    · intro r2 hr2 hne
      simp [createHeap, hn, hnz, List.getD_eq_getElem?_getD,
        List.getElem?_set_ne (show r ≠ r2 from fun e => hne e.symm)]
  · rintro (hn | hn) <;> simp [createHeap, hn]

/-- C10 (witness): a concrete heap with the caller's props in cell 0:
after `_create` reports last_row_id 123, cell 0 holds the annotated
record and the returned reference is cell 0. -/
theorem c10_witness :
    ((createHeap "id" [[("name", Value.str "John Doe")]] 0
        { meta := some { last_row_id := some 123 } }).2.1 = 0)
    ∧ ((createHeap "id" [[("name", Value.str "John Doe")]] 0
        { meta := some { last_row_id := some 123 } }).1.getD 0 []
      = setField [("name", Value.str "John Doe")] "id" (.num 123)) := by
  have h := (c10_create_writes_through_ref "id" [[("name", Value.str "John Doe")]] 0
    { meta := some { last_row_id := some 123 } }).1 123 rfl (by decide) (by decide)
  exact ⟨h.1, h.2.1⟩

end CFA
